import Mathlib

/-!
Shallow embedding of the declarative figure-composition engine of
src/plotters/mplplotter.py: the per-structure interpreter `_add_axes`
and the four template generators.  Python dictionaries are embedded as
association lists with in-place overwrite, the global logger as an
explicit list of log messages threaded through the state, and the
matplotlib backend as an oracle saying which backend calls fail.
-/

namespace Gdpy3

/-- Python values appearing in instruction args and kwargs: None, bools,
ints, strings, tuples/lists of values, and opaque numeric arrays. -/
inductive Val where
  | none
  | bool (b : Bool)
  | int (n : Int)
  | str (s : String)
  | list (l : List Val)
  | arr (a : List Int)

/-- Python truthiness of a value, as used by bare `if v:` tests. -/
def truthyV : Val → Bool
  | .none => false
  | .bool b => b
  | .int n => n != 0
  | .str s => s != ""
  | .list l => !l.isEmpty
  | .arr a => !a.isEmpty

/-- Truthiness of an optional string argument (None or a string). -/
def truthyS (o : Option String) : Bool :=
  match o with
  | Option.none => false
  | some s => s != ""

/-- A Python dict, embedded as an association list in insertion order. -/
abbrev Dict (κ α : Type) := List (κ × α)

/-- Assignment `d[k] = v` on a dict: overwrite in place if the key is
present, else append the new binding (Python dicts keep insertion order). -/
def setKey {κ α : Type} [BEq κ] (d : Dict κ α) (k : κ) (v : α) : Dict κ α :=
  if d.any (fun p => p.1 == k) then
    d.map (fun p => if p.1 == k then (k, v) else p)
  else
    d ++ [(k, v)]

/-- Read of a dict key: first binding (dicts built by `setKey` from `[]`
have unique keys, so first = only). -/
def getKey {κ α : Type} [BEq κ] : Dict κ α → κ → Option α
  | [], _ => Option.none
  | p :: r, k => if p.1 == k then some p.2 else getKey r k

/-- Last binding of a key in an association list; this is the value a
Python `dict.update` leaves behind when fed these pairs in order. -/
def lookupLast {κ α : Type} [BEq κ] : Dict κ α → κ → Option α
  | [], _ => Option.none
  | p :: r, k =>
    match lookupLast r k with
    | some v => some v
    | Option.none => if p.1 == k then some p.2 else Option.none

/-- The method `d.update(e)`: assign every binding of `e` into `d`, in
order. -/
def update {κ α : Type} [BEq κ] (d e : Dict κ α) : Dict κ α :=
  e.foldl (fun a p => setKey a p.1 p.2) d

/-- Membership test `k in d`. -/
def hasKey {κ α : Type} [BEq κ] (d : Dict κ α) (k : κ) : Bool :=
  d.any (fun p => p.1 == k)

/-- A Python dict with string keys (kwargs, layout keywords, styles). -/
abbrev Kwargs := Dict String Val

/-- Key-indexed registry with Python-int keys (the `order` keys of the
axes and artist registries). -/
abbrev Reg (α : Type) := Dict Int α

/-- Messages sent to the module logger; only error and warning calls are
modelled, debug traces carry no information the spec talks about. -/
inductive LogMsg where
  | error (s : String)
  | warn (s : String)
deriving DecidableEq

/-- A matplotlib axes object reachable during one `_add_axes` run: the
primary panel created from the layout, or a twin created by calling
`twinx`/`twiny` on some panel.  The `k` component is a creation counter
making distinct twin objects distinct. -/
inductive Panel where
  | primary
  | twin (parent : Panel) (verb : String) (k : Nat)
deriving DecidableEq

/-- The panel a twin was created from (`None` for the primary panel). -/
def Panel.parent : Panel → Option Panel
  | .primary => Option.none
  | .twin p _ _ => some p

/-- An artist returned by `getattr(ax, axfunc)(*fargs, **fkwargs)`: it
records the panel the drawing method was invoked on, and the call. -/
structure Artifact where
  panel : Panel
  verb : String
  args : Val
  kwargs : Kwargs

/-- A revise callback `(fig, axesdict, artistdict, **kw)`; the figure is
not inspected by any property, so the callback sees the two registries and
its kwargs, and either returns or raises. -/
def Callback : Type :=
  Reg Panel → Reg Artifact → Kwargs → Except String Unit

/-- The `fargs` slot of an instruction: a plain Python value (a tuple of
positional arguments, or whatever object the author stored there), or a
callback in the `revise` case. -/
inductive PyArgs where
  | val (v : Val)
  | callback (cb : Callback)

/-- One entry `[index, axfunc, fargs, fkwargs]` of an AxesStructure's
data list. -/
structure Instr where
  index : Int
  axfunc : String
  fargs : PyArgs
  fkwargs : Kwargs

/-- The `layout[0]` slot: a subplot int code, an explicit rectangle list,
a `matplotlib.gridspec.SubplotSpec` handle, or any other object (invalid).
Rectangles and gridspec handles are opaque to the engine. -/
inductive Position where
  | int (n : Int)
  | rect (r : List Val)
  | gridspec (g : Nat)
  | other (o : Nat)

/-- The isinstance check of `_add_axes`:
`isinstance(layout[0], (int, list, matplotlib.gridspec.SubplotSpec))`. -/
def isValidPos : Position → Bool
  | .int _ => true
  | .rect _ => true
  | .gridspec _ => true
  | .other _ => false

/-- The `isinstance(layout[0], list)` test choosing `fig.add_axes` over
`fig.add_subplot`. -/
def isRectPos : Position → Bool
  | .rect _ => true
  | _ => false

/-- The `layout` slot `[position, kwargs]` of an AxesStructure. -/
structure Layout where
  pos : Position
  kw : Kwargs

/-- One declarative AxesStructure `{data, layout, axstyle}`. -/
structure AxesStruct where
  data : List Instr
  layout : Layout
  axstyle : List Kwargs

/-- The rendering backend, as an oracle telling which backend calls
raise: panel creation (`add_subplot` / `add_axes`), twin creation, and
drawing-method invocation. -/
structure Backend where
  addSubplotFails : Position → Kwargs → Bool
  addAxesFails : Position → Kwargs → Bool
  twinFails : Panel → String → Bool
  drawFails : Panel → String → Bool

/-- A backend on which every call succeeds. -/
def noFailB : Backend :=
  ⟨fun _ _ => false, fun _ _ => false, fun _ _ => false, fun _ _ => false⟩

/-- The mutable state of the instruction loop of `_add_axes`: the current
panel variable `ax`, the two registries, a freshness counter for twin
objects, and the observable figure effects (panels and artists added,
colour-cycle advances, log messages). -/
structure RunState where
  ax : Panel
  axesdict : Reg Panel
  artistdict : Reg Artifact
  twinCount : Nat
  panels : List Panel
  artifacts : List Artifact
  colorAdvances : List (Panel × Nat)
  logs : List LogMsg

/-- One iteration of the instruction loop of `_add_axes`, dispatching on
the verb exactly as the source does; every failure of a backend call or
callback is caught and logged, never re-raised. -/
def execInstr (B : Backend) (st : RunState) (ins : Instr) : RunState :=
  if ins.axfunc = "twinx" ∨ ins.axfunc = "twiny" then
    -- ax = getattr(ax, axfunc)(): the twin is created off the CURRENT ax
    if B.twinFails st.ax ins.axfunc then
      { st with logs := st.logs ++ [.error ("Failed to create axes " ++ toString ins.index)] }
    else
      let newAx := Panel.twin st.ax ins.axfunc st.twinCount
      let warns : List LogMsg :=
        if hasKey st.axesdict ins.index then [.warn ("Duplicate index " ++ toString ins.index)]
        else []
      let st1 : RunState :=
        { st with ax := newAx,
                  axesdict := setKey st.axesdict ins.index newAx,
                  twinCount := st.twinCount + 1,
                  panels := st.panels ++ [newAx],
                  logs := st.logs ++ warns }
      -- if 'nextcolor' in fkwargs: advance the colour cycle that many steps
      match getKey ins.fkwargs "nextcolor" with
      | some (Val.int n) =>
          { st1 with colorAdvances := st1.colorAdvances ++ [(newAx, n.toNat)] }
      | some _ =>
          { st1 with logs := st1.logs ++ [.error ("Failed to create axes " ++ toString ins.index)] }
      | Option.none => st1
  else if ins.axfunc = "revise" then
    match ins.fargs with
    | .callback cb =>
      match cb st.axesdict st.artistdict ins.fkwargs with
      | .ok _ => st
      | .error _ => { st with logs := st.logs ++ [.error "Failed to revise axes!"] }
    | .val _ => { st with logs := st.logs ++ [.error "Failed to revise axes!"] }
  else
    match ins.fargs with
    | .val a =>
      if B.drawFails st.ax ins.axfunc then
        { st with logs := st.logs ++ [.error ("Failed to add artist " ++ toString ins.index)] }
      else
        let art : Artifact := ⟨st.ax, ins.axfunc, a, ins.fkwargs⟩
        let warns : List LogMsg :=
          if hasKey st.artistdict ins.index then [.warn ("Duplicate index " ++ toString ins.index)]
          else []
        { st with artistdict := setKey st.artistdict ins.index art,
                  artifacts := st.artifacts ++ [art],
                  logs := st.logs ++ warns }
    | .callback _ =>
      { st with logs := st.logs ++ [.error ("Failed to add artist " ++ toString ins.index)] }

/-- The instruction loop `for index, axfunc, fargs, fkwargs in data`. -/
def runData (B : Backend) (st : RunState) (data : List Instr) : RunState :=
  data.foldl (execInstr B) st

/-- Whether executing this instruction in this state raises inside its
try block: twin creation raising, a revise callback raising (or the
`fargs` slot not being callable), or a drawing invocation raising (or
the `fargs` slot not being a spreadable value). -/
def instrFails (B : Backend) (st : RunState) (ins : Instr) : Bool :=
  if ins.axfunc = "twinx" ∨ ins.axfunc = "twiny" then
    B.twinFails st.ax ins.axfunc
  else if ins.axfunc = "revise" then
    match ins.fargs with
    | .callback cb =>
      match cb st.axesdict st.artistdict ins.fkwargs with
      | .ok _ => false
      | .error _ => true
    | .val _ => true
  else
    match ins.fargs with
    | .val _ => B.drawFails st.ax ins.axfunc
    | .callback _ => true

/-- The observable outcome of one `_add_axes` call: panels and artists
added to the figure, the final registries, colour-cycle advances, and the
log. -/
structure BuildResult where
  panels : List Panel
  artifacts : List Artifact
  axesdict : Reg Panel
  artistdict : Reg Artifact
  colorAdvances : List (Panel × Nat)
  logs : List LogMsg

/-- The initial loop state after `axesdict, artistdict = {0: ax}, {}`. -/
def initState : RunState :=
  ⟨Panel.primary, [(0, Panel.primary)], [], 0, [Panel.primary], [], [], []⟩

/-- The interpreter `_add_axes(fig, data, layout, axstyle)`: validate the
layout position, create the primary panel, then run the instruction loop.
Both abort paths return with the figure untouched. -/
def add_axes (B : Backend) (s : AxesStruct) : BuildResult :=
  if ¬ isValidPos s.layout.pos then
    ⟨[], [], [], [], [],
     [.error "AxesStructure layout 0 must be a int, list, or SubplotSpec. Ignore this axes."]⟩
  else
    let createFailed :=
      if isRectPos s.layout.pos then B.addAxesFails s.layout.pos s.layout.kw
      else B.addSubplotFails s.layout.pos s.layout.kw
    if createFailed then
      ⟨[], [], [], [], [], [.error "Failed to add axes!"]⟩
    else
      let st := runData B initState s.data
      ⟨st.panels, st.artifacts, st.axesdict, st.artistdict, st.colorAdvances, st.logs⟩

/-- Shorthand for a data entry `[index, axfunc, args, kwargs]` whose args
slot is a plain value. -/
def mkI (i : Int) (v : String) (args : Val) (kw : Kwargs) : Instr :=
  ⟨i, v, .val args, kw⟩

/-! The line-chart template `_template_line_axstructs`. -/

/-- One input line of the line template: `(x, y)` or `(x, y, label)`,
the two shapes the producer contract admits. -/
inductive Line where
  | xy (x y : Val)
  | xyl (x y : Val) (label : String)

/-- Whether the line carries a label (is a 3-tuple). -/
def Line.isLabelled : Line → Bool
  | .xy _ _ => false
  | .xyl _ _ _ => true

/-- The plot entry the loop body appends for this line at index `i`. -/
def Line.toPlot (ln : Line) (i : Int) : Instr :=
  match ln with
  | .xy x y => mkI i "plot" (.list [x, y]) []
  | .xyl x y lab => mkI i "plot" (.list [x, y]) [("label", .str lab)]

/-- The loop `for i, ln in enumerate(LINE, 1)` of the line template:
returns the appended entries, the final value of the loop variable `i`
(`none` when the loop body never ran, i.e. the name stays unbound), and
the final `addlegend` flag. -/
def lineLoop (i : Int) : List Line → List Instr × Option Int × Bool
  | [] => ([], Option.none, false)
  | ln :: r =>
    let rest := lineLoop (i + 1) r
    (ln.toPlot i :: rest.1, some (rest.2.1.getD i), ln.isLabelled || rest.2.2)

/-- Reading a Python local that may never have been bound: raises
NameError when the binding is absent. -/
def pyName (o : Option Int) : Except String Int :=
  match o with
  | some n => .ok n
  | Option.none => .error "NameError: name i is not defined"

/-- String payload of an optional-string argument that passed its
truthiness test. -/
def strOf (o : Option String) : Val :=
  .str (o.getD "")

/-- The template `_template_line_axstructs(LINE, title, xlabel, ylabel,
xlim, ylim, ylabel_rotation, legend_kwargs)`.  An uncaught exception of
the Python function is an `Except.error`. -/
def template_line_axstructs (LINE : List Line) (title xlabel ylabel : Option String)
    (xlim ylim : Val) (ylabel_rotation : Option Val) (legend_kwargs : Kwargs) :
    Except String (List AxesStruct × List Kwargs) := do
  let res := lineLoop 1 LINE
  let data0 := res.1
  let iOpt0 := res.2.1
  let addlegend := res.2.2
  let (data1, iOpt1) ←
    if addlegend then do
      let i ← pyName iOpt0
      pure (data0 ++ [mkI (i + 1) "legend" (.list []) legend_kwargs], some (i + 1))
    else
      pure (data0, iOpt0)
  let kw1 : Kwargs := if truthyS title then setKey [] "title" (strOf title) else []
  let kw2 := if truthyS xlabel then setKey kw1 "xlabel" (strOf xlabel) else kw1
  let (data2, kw3) ←
    if truthyS ylabel then
      match ylabel_rotation with
      | Option.none => pure (data1, setKey kw2 "ylabel" (strOf ylabel))
      | some rot => do
        let i ← pyName iOpt1
        pure (data1 ++ [mkI (i + 1) "set_ylabel" (.list [strOf ylabel])
                          [("rotation", rot)]], kw2)
    else
      pure (data1, kw2)
  let kw4 := if truthyV xlim then setKey kw3 "xlim" xlim else kw3
  let kw5 := if truthyV ylim then setKey kw4 "ylim" ylim else kw4
  pure ([⟨data2, ⟨.int 111, kw5⟩, []⟩], [])

/-! The pseudocolor/surface template `_template_pcolor_axstructs`. -/

/-- Maximum entry of a numeric array, as `Z.max()` (arrays fed to the
template are nonempty, the seed is never the result there). -/
def lmax (l : List Int) : Int :=
  l.foldl max (l.headD 0)

/-- Minimum entry of a numeric array, as `Z.min()`. -/
def lmin (l : List Int) : Int :=
  l.foldl min (l.headD 0)

/-- A shadow-projection axis name, `x`, `y` or `z` by the producer
contract of the surface variant. -/
inductive SAxis where
  | x
  | y
  | z
deriving DecidableEq

/-- The axis name string used to build the `zdir` kwarg and the
`%slim` layout key. -/
def SAxis.name : SAxis → String
  | .x => "x"
  | .y => "y"
  | .z => "z"

/-- The `_offsetd` lookup of the shadow loop. -/
def offsetd (X Y : List Int) (Zmax : Int) : SAxis → Val
  | .x => .int (lmin X)
  | .y => .int (lmax Y)
  | .z => .int (-Zmax)

/-- The `_limd` lookup of the shadow loop. -/
def limd (X Y : List Int) (Zmax : Int) : SAxis → Val
  | .x => .arr [lmin X, lmax X]
  | .y => .arr [lmin Y, lmax Y]
  | .z => .arr [-Zmax, Zmax]

/-- The loop `for x in plot_surface_shadow` of the surface branch:
threads `layoutkw` and `order` and appends one contourf entry per axis. -/
def shadowLoop (X Y Z : List Int) (Zmax : Int) :
    Kwargs → Int → List SAxis → Kwargs × Int × List Instr
  | lk, order, [] => (lk, order, [])
  | lk, order, a :: r =>
    let order1 := order + 1
    let lk1 := setKey lk (a.name ++ "lim") (limd X Y Zmax a)
    let ins := mkI order1 "contourf" (.list [.arr X, .arr Y, .arr Z, .int 100])
      [("zdir", .str a.name), ("offset", offsetd X Y Zmax a)]
    let rest := shadowLoop X Y Z Zmax lk1 order1 r
    (rest.1, rest.2.1, ins :: rest.2.2)

/-- The colorbar revise callback
`lambda fig, ax, art: fig.colorbar(art[1])`: reads the artist registered
at key 1 and raises when it is absent. -/
def colorbarCB : Callback :=
  fun _ artd _ => if (getKey artd 1).isSome then .ok () else .error "KeyError: 1"

/-- The template `_template_pcolor_axstructs(X, Y, Z, plot_method,
plot_method_args, plot_method_kwargs, title, xlabel, ylabel, colorbar,
grid_alpha, plot_surface_shadow)`. -/
def template_pcolor_axstructs (X Y Z : List Int) (plot_method : String)
    (plot_method_args : List Val) (plot_method_kwargs : Kwargs)
    (title xlabel ylabel : Option String) (colorbar : Bool)
    (grid_alpha : Option Val) (plot_surface_shadow : List SAxis) :
    List AxesStruct × List Kwargs :=
  let Zmax : Int := max |lmax Z| |lmin Z|
  -- layoutkw, plotkw, plotarg, order, data = {}, {}, [], 1, []
  let start : Kwargs × Kwargs × Int × List Instr :=
    if plot_method = "plot_surface" then
      let lk : Kwargs := [("projection", .str "3d"), ("zlim", .arr [-Zmax, Zmax])]
      let pk : Kwargs := [("rstride", .int 1), ("cstride", .int 1), ("linewidth", .int 1),
                          ("antialiased", .bool true), ("cmap", .str "jet")]
      if !plot_surface_shadow.isEmpty then
        let sh := shadowLoop X Y Z Zmax lk 1 plot_surface_shadow
        (sh.1, pk, sh.2.1, sh.2.2)
      else
        (lk, pk, 1, [])
    else
      ([], [], 1, [])
  let layoutkw0 := start.1
  let plotkw0 := start.2.1
  let order0 := start.2.2.1
  let data0 := start.2.2.2
  let next1 : Int × List Instr :=
    if colorbar then (order0 + 1, data0 ++ [⟨order0 + 1, "revise", .callback colorbarCB, []⟩])
    else (order0, data0)
  let data1 := next1.2
  let next2 : Int × List Instr :=
    match grid_alpha with
    | some ga => (next1.1 + 1, data1 ++ [mkI (next1.1 + 1) "grid" (.list []) [("alpha", ga)]])
    | Option.none => (next1.1, data1)
  let data2 := next2.2
  let plotarg : List Val :=
    plot_method_args ++
      (if plot_method_args.isEmpty ∧ plot_method = "contourf" then [.int 100] else [])
  let plotkw1 := update plotkw0 [("vmin", .int (-Zmax)), ("vmax", .int Zmax)]
  let plotkw2 := update plotkw1 plot_method_kwargs
  let data3 := mkI 1 plot_method (.list ([.arr X, .arr Y, .arr Z] ++ plotarg)) plotkw2 :: data2
  let lk1 := if truthyS title then setKey layoutkw0 "title" (strOf title) else layoutkw0
  let lk2 := if truthyS xlabel then setKey lk1 "xlabel" (strOf xlabel) else lk1
  let lk3 := if truthyS ylabel then setKey lk2 "ylabel" (strOf ylabel) else lk2
  ([⟨data3, ⟨.int 111, lk3⟩, []⟩], [])

/-! The shared-x stacked twin-axis template
`_template_sharex_twinx_axstructs`. -/

/-- One row of YINFO: the dict with mandatory `left`/`right` line groups
(each line a `(y, label)` pair) and optional legend/ylabel entries. -/
structure Row where
  left : List (Val × String)
  right : List (Val × String)
  llegend : Option Kwargs
  rlegend : Option Kwargs
  lylabel : Option String
  rylabel : Option String

/-- The loop `for i, ln in enumerate(lines, start)` appending
`[i, 'plot', (X, ln[0]), dict(label=ln[1])]` for each line. -/
def plotLoop (X : Val) : Int → List (Val × String) → List Instr
  | _, [] => []
  | i, ln :: r => mkI i "plot" (.list [X, ln.1]) [("label", .str ln.2)] :: plotLoop X (i + 1) r

/-- The left-group block of one row, together with the final value of the
loop counter `i` (0 when the left group is empty and the block is
skipped). -/
def leftBlock (X rot : Val) (row : Row) : List Instr × Int :=
  if row.left.length > 0 then
    let plots := plotLoop X 1 row.left
    let legendkw := row.llegend.getD [("loc", .str "upper left")]
    let i1 : Int := (row.left.length : Int) + 1
    match row.lylabel with
    | some yl =>
      (plots ++ [mkI i1 "legend" (.list []) legendkw,
                 mkI (i1 + 1) "set_ylabel" (.list [.str yl]) [("rotation", rot)]],
       i1 + 1)
    | Option.none => (plots ++ [mkI i1 "legend" (.list []) legendkw], i1)
  else ([], 0)

/-- The data list of one row: the left block, then — when the right group
is non-empty — the twinx entry carrying `nextcolor`, the right plots,
the right legend, the optional right ylabel, and the re-applied
`set_xlim`. -/
def rowData (X xlim rot : Val) (row : Row) : List Instr :=
  let lb := leftBlock X rot row
  if row.right.length > 0 then
    let it := lb.2 + 1
    let plots := plotLoop X (it + 1) row.right
    let i2 := it + (row.right.length : Int)
    let legendkw := row.rlegend.getD [("loc", .str "upper right")]
    let i3 := i2 + 1
    let d := lb.1 ++ mkI it "twinx" (.list []) [("nextcolor", .int row.left.length)] ::
      (plots ++ [mkI i3 "legend" (.list []) legendkw])
    match row.rylabel with
    | some yl =>
      d ++ [mkI (i3 + 1) "set_ylabel" (.list [.str yl]) [("rotation", rot)],
            mkI (i3 + 2) "set_xlim" xlim []]
    | Option.none => d ++ [mkI (i3 + 1) "set_xlim" xlim []]
  else lb.1

/-- The subplot code `int("%s1%s" % (len(YINFO), row + 1))`. -/
def subplotNumber (n r : Nat) : Nat :=
  ((toString n ++ "1" ++ toString (r + 1)).toNat?).getD 0

/-- The layout kwargs of row `r` of `n`: the shared xlim always, the
title only on row 0, the xlabel only on the last row, suppressed x tick
labels on every other row. -/
def rowLayoutKw (n r : Nat) (title xlabel : Option String) (xlim : Val) : Kwargs :=
  let l0 : Kwargs := [("xlim", xlim)]
  let l1 := if r = 0 ∧ truthyS title then setKey l0 "title" (strOf title) else l0
  if r = n - 1 then
    (if truthyS xlabel then setKey l1 "xlabel" (strOf xlabel) else l1)
  else
    setKey l1 "xticklabels" (.list [])

/-- The structure appended for row `r`. -/
def mkRowStruct (X xlim rot : Val) (n : Nat) (title xlabel : Option String)
    (r : Nat) (row : Row) : AxesStruct :=
  ⟨rowData X xlim rot row, ⟨.int (subplotNumber n r), rowLayoutKw n r title xlabel xlim⟩, []⟩

/-- The loop `for row in range(len(YINFO))` building one structure per
row. -/
def sharexRows (X xlim rot : Val) (n : Nat) (title xlabel : Option String) :
    Nat → List Row → List AxesStruct
  | _, [] => []
  | r, row :: rest =>
    mkRowStruct X xlim rot n title xlabel r row :: sharexRows X xlim rot n title xlabel (r + 1) rest

/-- The template `_template_sharex_twinx_axstructs(X, YINFO, hspace,
title, xlabel, xlim, ylabel_rotation)`. -/
def template_sharex_twinx_axstructs (X : Val) (YINFO : List Row) (hspace : Val)
    (title xlabel : Option String) (xlim : Val) (ylabel_rotation : Val) :
    List AxesStruct × List Kwargs :=
  (sharexRows X xlim ylabel_rotation YINFO.length title xlabel 0 YINFO,
   [[("figure.subplot.hspace", hspace)]])

/-! The composite-grid template `_template_z111p_axstructs`. -/

/-- The suptitle revise callback
`def addsuptitle(fig, ax, art): return fig.suptitle(suptitle)`. -/
def suptitleCB : Callback :=
  fun _ _ _ => .ok ()

/-- The loop `for i, _results in enumerate(zip_results, 0)`: a valid
position overwrites the structure's layout position, an invalid one logs
an error and drops the pair. -/
def z111pLoop : Nat → List (AxesStruct × Position) → List AxesStruct × List LogMsg
  | _, [] => ([], [])
  | i, (ax, pos) :: r =>
    let rest := z111pLoop (i + 1) r
    if isValidPos pos then
      ({ ax with layout := ⟨pos, ax.layout.kw⟩ } :: rest.1, rest.2)
    else
      (rest.1, .error ("zip_results " ++ toString i ++ ": invalid position!") :: rest.2)

/-- The template `_template_z111p_axstructs(zip_results, suptitle)`; the
module logger is modelled as an explicit second component of the result. -/
def template_z111p_axstructs (zip_results : List (AxesStruct × Position))
    (suptitle : Option String) : (List AxesStruct × List Kwargs) × List LogMsg :=
  let r := z111pLoop 0 zip_results
  if ¬ truthyS suptitle then
    ((r.1, []), r.2)
  else
    match r.1 with
    | [] => (([], []), r.2 ++ [.error "Failed to set suptitle"])
    | s0 :: rest =>
      let data1 := s0.data ++ [⟨(s0.data.length : Int) + 1, "revise", .callback suptitleCB, []⟩]
      (({ s0 with data := data1 } :: rest, []), r.2)

/-! Lemmas about the dict embedding. -/

theorem setKey_cons {κ α : Type} [BEq κ] (p : κ × α) (r : Dict κ α) (k1 : κ) (v : α) :
    setKey (p :: r) k1 v =
      if p.1 == k1 then
        (k1, v) :: r.map (fun q => if q.1 == k1 then (k1, v) else q)
      else p :: setKey r k1 v := by
  by_cases hp : p.1 == k1
  · simp [setKey, hp]
  · by_cases hr : r.any (fun q => q.1 == k1)
    · simp [setKey, hp, hr]
    · simp [setKey, hp, hr]

theorem getKey_setKey_self {κ α : Type} [BEq κ] [LawfulBEq κ] (d : Dict κ α) (k : κ) (v : α) :
    getKey (setKey d k v) k = some v := by
  induction d with
  | nil => simp [setKey, getKey]
  | cons p r ih =>
    rw [setKey_cons]
    by_cases hp : p.1 == k
    · simp [hp, getKey]
    · simp [hp, getKey, ih]

theorem getKey_map_ne {κ α : Type} [BEq κ] [LawfulBEq κ] (r : Dict κ α) (k k1 : κ) (v : α)
    (h : k ≠ k1) :
    getKey (r.map (fun q => if q.1 == k1 then (k1, v) else q)) k = getKey r k := by
  have hk1 : (k1 == k) = false := beq_eq_false_iff_ne.mpr (Ne.symm h)
  induction r with
  | nil => rfl
  | cons q s ih =>
    by_cases hq : q.1 == k1
    · have hqk : (q.1 == k) = false := by rw [eq_of_beq hq]; exact hk1
      simp [hq, getKey, hk1, hqk, ih]
    · by_cases hqk : q.1 == k <;> simp [hq, getKey, hqk, ih]

theorem getKey_setKey_ne {κ α : Type} [BEq κ] [LawfulBEq κ] (d : Dict κ α) (k k1 : κ) (v : α)
    (h : k ≠ k1) : getKey (setKey d k1 v) k = getKey d k := by
  have hk1 : (k1 == k) = false := beq_eq_false_iff_ne.mpr (Ne.symm h)
  induction d with
  | nil => simp [setKey, getKey, hk1]
  | cons p r ih =>
    rw [setKey_cons]
    by_cases hp : p.1 == k1
    · have hpk : (p.1 == k) = false := by rw [eq_of_beq hp]; exact hk1
      simp [hp, getKey, hk1, hpk, getKey_map_ne r k k1 v h]
    · by_cases hpk : p.1 == k <;> simp [getKey, hp, hpk, ih]

theorem getKey_update_none {κ α : Type} [BEq κ] [LawfulBEq κ] (e : Dict κ α) :
    ∀ (d : Dict κ α) (k : κ), lookupLast e k = Option.none →
      getKey (update d e) k = getKey d k := by
  induction e with
  | nil => intro d k _; rfl
  | cons p r ih =>
    intro d k h
    simp only [lookupLast] at h
    show getKey (update (setKey d p.1 p.2) r) k = getKey d k
    cases hr : lookupLast r k with
    | some w => rw [hr] at h; simp at h
    | none =>
      rw [hr] at h
      simp only [] at h
      have hp : (p.1 == k) = false := by
        cases h2 : p.1 == k
        · rfl
        · rw [h2] at h; simp at h
      rw [ih _ _ hr]
      exact getKey_setKey_ne d k p.1 p.2 (by intro e2; rw [e2] at hp; simp at hp)

theorem getKey_update_some {κ α : Type} [BEq κ] [LawfulBEq κ] (e : Dict κ α) :
    ∀ (d : Dict κ α) (k : κ) (v : α), lookupLast e k = some v →
      getKey (update d e) k = some v := by
  induction e with
  | nil => intro d k v h; simp [lookupLast] at h
  | cons p r ih =>
    intro d k v h
    simp only [lookupLast] at h
    show getKey (update (setKey d p.1 p.2) r) k = some v
    cases hr : lookupLast r k with
    | some w =>
      rw [hr] at h
      simp only [] at h
      exact ih _ _ _ (by rw [hr]; exact h)
    | none =>
      rw [hr] at h
      simp only [] at h
      by_cases hp : p.1 == k
      · rw [hp] at h
        simp at h
        rw [getKey_update_none r _ _ hr]
        rw [eq_of_beq hp]
        rw [getKey_setKey_self]
        rw [h]
      · simp [hp] at h

/-! Helper lemmas about single instruction steps. -/

/-- Membership in the drawing-dispatch branch: not a twin verb, not revise. -/
def isDrawVerb (v : String) : Bool :=
  !(v == "twinx" || v == "twiny" || v == "revise")

theorem exec_twin_ok (B : Backend) (st : RunState) (ins : Instr)
    (hv : ins.axfunc = "twinx" ∨ ins.axfunc = "twiny")
    (hf : B.twinFails st.ax ins.axfunc = false) :
    execInstr B st ins =
      (let newAx := Panel.twin st.ax ins.axfunc st.twinCount
       let st1 : RunState :=
         { st with ax := newAx,
                   axesdict := setKey st.axesdict ins.index newAx,
                   twinCount := st.twinCount + 1,
                   panels := st.panels ++ [newAx],
                   logs := st.logs ++
                     (if hasKey st.axesdict ins.index then
                        [.warn ("Duplicate index " ++ toString ins.index)] else []) }
       match getKey ins.fkwargs "nextcolor" with
       | some (Val.int n) => { st1 with colorAdvances := st1.colorAdvances ++ [(newAx, n.toNat)] }
       | some _ =>
         { st1 with logs := st1.logs ++ [.error ("Failed to create axes " ++ toString ins.index)] }
       | Option.none => st1) := by
  simp only [execInstr, hf, if_pos hv, Bool.false_eq_true, if_false]

theorem exec_draw_ok (B : Backend) (st : RunState) (ins : Instr) (a : Val)
    (hv : isDrawVerb ins.axfunc = true) (ha : ins.fargs = .val a)
    (hf : B.drawFails st.ax ins.axfunc = false) :
    execInstr B st ins =
      { st with artistdict := setKey st.artistdict ins.index ⟨st.ax, ins.axfunc, a, ins.fkwargs⟩,
                artifacts := st.artifacts ++ [⟨st.ax, ins.axfunc, a, ins.fkwargs⟩],
                logs := st.logs ++
                  (if hasKey st.artistdict ins.index then
                     [.warn ("Duplicate index " ++ toString ins.index)] else []) } := by
  simp only [isDrawVerb, Bool.not_eq_true', Bool.or_eq_false_iff, beq_eq_false_iff_ne,
    ne_eq] at hv
  have h1 : ¬ (ins.axfunc = "twinx" ∨ ins.axfunc = "twiny") := by
    intro h; rcases h with h | h
    · exact hv.1.1 h
    · exact hv.1.2 h
  simp only [execInstr, if_neg h1, if_neg hv.2, ha, hf, Bool.false_eq_true, if_false]

/-! Concrete fixtures used by witnesses and counterexamples. -/

/-- A structure whose data is two successive twinx instructions. -/
def twoTwinStruct : AxesStruct :=
  ⟨[⟨1, "twinx", .val (.list []), []⟩, ⟨2, "twinx", .val (.list []), []⟩], ⟨.int 111, []⟩, []⟩

/-- The spec test structure `data = [(2,'twinx',(),{}), (3,'plot',(x,y),{})]`. -/
def pairStruct (a : Val) (kw : Kwargs) : AxesStruct :=
  ⟨[⟨2, "twinx", .val (.list []), []⟩, ⟨3, "plot", .val a, kw⟩], ⟨.int 111, []⟩, []⟩

/-- A revise instruction whose callback raises. -/
def failRevise : Instr :=
  ⟨9, "revise", .callback (fun _ _ _ => .error "boom"), []⟩

/-- A plot instruction following the failing revise in the C2 witness. -/
def plotAfter : Instr :=
  mkI 3 "plot" (.list []) []

/-! Claim C1. -/

/-- C1, counterexample: for the structure with two successive twinx
instructions, the interpreter does NOT create the second twin off the
primary panel registered at key 0: the panel registered at key 2 is a
twin of the panel registered at key 1 (itself a twin), whose parent is
not the primary panel. -/
theorem C1_counterexample :
    getKey (add_axes noFailB twoTwinStruct).axesdict 0 = some Panel.primary ∧
    getKey (add_axes noFailB twoTwinStruct).axesdict 1 =
      some (Panel.twin Panel.primary "twinx" 0) ∧
    getKey (add_axes noFailB twoTwinStruct).axesdict 2 =
      some (Panel.twin (Panel.twin Panel.primary "twinx" 0) "twinx" 1) ∧
    (Panel.twin (Panel.twin Panel.primary "twinx" 0) "twinx" 1).parent ≠
      some Panel.primary := by
  refine ⟨rfl, rfl, rfl, ?_⟩
  intro h
  simp [Panel.parent] at h

/-- C1, amended: a twinx/twiny instruction creates the twin off the
CURRENT panel (the panel selected by the most recent preceding twin
instruction, or the primary panel if none), registers it at the
instruction's order key, and selects it as the new current panel; so two
successive twin instructions yield a twin of the first twin, not a second
twin of the primary panel. -/
theorem C1_twin_off_current_panel (B : Backend) (st : RunState) (ins : Instr)
    (hv : ins.axfunc = "twinx" ∨ ins.axfunc = "twiny")
    (hf : B.twinFails st.ax ins.axfunc = false) :
    (execInstr B st ins).ax = Panel.twin st.ax ins.axfunc st.twinCount ∧
    getKey (execInstr B st ins).axesdict ins.index =
      some (Panel.twin st.ax ins.axfunc st.twinCount) ∧
    (Panel.twin st.ax ins.axfunc st.twinCount).parent = some st.ax := by
  rw [exec_twin_ok B st ins hv hf]
  cases hnc : getKey ins.fkwargs "nextcolor" with
  | none => exact ⟨rfl, getKey_setKey_self st.axesdict ins.index _, rfl⟩
  | some v =>
    cases v with
    | int n => exact ⟨rfl, getKey_setKey_self st.axesdict ins.index _, rfl⟩
    | none => exact ⟨rfl, getKey_setKey_self st.axesdict ins.index _, rfl⟩
    | bool b => exact ⟨rfl, getKey_setKey_self st.axesdict ins.index _, rfl⟩
    | str s2 => exact ⟨rfl, getKey_setKey_self st.axesdict ins.index _, rfl⟩
    | list l => exact ⟨rfl, getKey_setKey_self st.axesdict ins.index _, rfl⟩
    | arr a2 => exact ⟨rfl, getKey_setKey_self st.axesdict ins.index _, rfl⟩

/-- C1, witness for the amended theorem at a concrete twin step. -/
theorem C1_twin_off_current_panel_witness :
    (execInstr noFailB initState ⟨5, "twinx", .val (.list []), []⟩).ax =
      Panel.twin Panel.primary "twinx" 0 ∧
    getKey (execInstr noFailB initState ⟨5, "twinx", .val (.list []), []⟩).axesdict 5 =
      some (Panel.twin Panel.primary "twinx" 0) ∧
    (Panel.twin Panel.primary "twinx" 0).parent = some Panel.primary :=
  C1_twin_off_current_panel noFailB initState ⟨5, "twinx", .val (.list []), []⟩
    (Or.inl rfl) rfl

/-! Claim C2. -/

/-- C2: a failing instruction (twin creation raising, a revise callback
raising or the revise args not being callable, a drawing call raising or
its args not being spreadable) only appends an error log entry, leaving
the registries, panels, artifacts and current panel unchanged; and the
interpretation of the rest of the data list always continues from the
state the instruction left, whatever happened — no instruction failure
escapes the loop. -/
theorem C2_failure_logged_and_loop_continues (B : Backend) (st : RunState) (ins : Instr)
    (rest : List Instr) :
    (instrFails B st ins = true →
      ∃ e, execInstr B st ins = { st with logs := st.logs ++ [.error e] }) ∧
    runData B st (ins :: rest) = runData B (execInstr B st ins) rest := by
  constructor
  · intro hf
    by_cases hv : ins.axfunc = "twinx" ∨ ins.axfunc = "twiny"
    · have hTF : B.twinFails st.ax ins.axfunc = true := by
        simpa [instrFails, hv] using hf
      refine ⟨"Failed to create axes " ++ toString ins.index, ?_⟩
      simp [execInstr, hv, hTF]
    · by_cases hr : ins.axfunc = "revise"
      · cases hcb : ins.fargs with
        | callback cb =>
          cases hres : cb st.axesdict st.artistdict ins.fkwargs with
          | ok u => simp [instrFails, hv, hr, hcb, hres] at hf
          | error e =>
            refine ⟨"Failed to revise axes!", ?_⟩
            simp [execInstr, hv, hr, hcb, hres]
        | val v =>
          refine ⟨"Failed to revise axes!", ?_⟩
          simp [execInstr, hv, hr, hcb]
      · cases hcb : ins.fargs with
        | val a =>
          have hDF : B.drawFails st.ax ins.axfunc = true := by
            simpa [instrFails, hv, hr, hcb] using hf
          refine ⟨"Failed to add artist " ++ toString ins.index, ?_⟩
          simp [execInstr, hv, hr, hcb, hDF]
        | callback cb =>
          refine ⟨"Failed to add artist " ++ toString ins.index, ?_⟩
          simp [execInstr, hv, hr, hcb]
  · rfl

/-- C2, witness: a revise whose callback raises is a failing instruction,
its execution only logs, and the following plot instruction still runs
and registers its artifact at key 3. -/
theorem C2_failure_logged_and_loop_continues_witness :
    instrFails noFailB initState failRevise = true ∧
    (∃ e, execInstr noFailB initState failRevise =
      { initState with logs := initState.logs ++ [.error e] }) ∧
    runData noFailB initState [failRevise, plotAfter] =
      runData noFailB (execInstr noFailB initState failRevise) [plotAfter] ∧
    getKey (runData noFailB initState [failRevise, plotAfter]).artistdict 3 =
      some ⟨Panel.primary, "plot", .list [], []⟩ := by
  have h := C2_failure_logged_and_loop_continues noFailB initState failRevise [plotAfter]
  exact ⟨rfl, h.1 rfl, h.2, rfl⟩

/-! Claim C3. -/

/-- C3: an instruction whose verb is neither twinx, twiny nor revise is
invoked as a drawing primitive on the current panel `st.ax` (left
unchanged), and its artifact — recording that panel — is registered at
the instruction's order key; in particular for
`data = [(2,'twinx',(),{}), (3,'plot',args,kw)]` the artifact registered
at key 3 belongs to the panel registered at key 2. -/
theorem C3_draw_targets_current_panel :
    (∀ (B : Backend) (st : RunState) (ins : Instr) (a : Val),
      isDrawVerb ins.axfunc = true → ins.fargs = .val a →
      B.drawFails st.ax ins.axfunc = false →
      getKey (execInstr B st ins).artistdict ins.index =
        some ⟨st.ax, ins.axfunc, a, ins.fkwargs⟩ ∧
      (execInstr B st ins).ax = st.ax) ∧
    (∀ (a : Val) (kw : Kwargs), ∃ (p : Panel) (art : Artifact),
      getKey (add_axes noFailB (pairStruct a kw)).axesdict 2 = some p ∧
      getKey (add_axes noFailB (pairStruct a kw)).artistdict 3 = some art ∧
      art.panel = p) := by
  constructor
  · intro B st ins a hv ha hf
    rw [exec_draw_ok B st ins a hv ha hf]
    exact ⟨getKey_setKey_self st.artistdict ins.index _, rfl⟩
  · intro a kw
    exact ⟨Panel.twin Panel.primary "twinx" 0,
      ⟨Panel.twin Panel.primary "twinx" 0, "plot", a, kw⟩, rfl, rfl, rfl⟩

/-- C3, witness at a concrete drawing step and a concrete twin-then-plot
structure. -/
theorem C3_draw_targets_current_panel_witness :
    (getKey (execInstr noFailB initState plotAfter).artistdict 3 =
      some ⟨Panel.primary, "plot", .list [], []⟩ ∧
     (execInstr noFailB initState plotAfter).ax = Panel.primary) ∧
    (∃ (p : Panel) (art : Artifact),
      getKey (add_axes noFailB (pairStruct (.list []) [])).axesdict 2 = some p ∧
      getKey (add_axes noFailB (pairStruct (.list []) [])).artistdict 3 = some art ∧
      art.panel = p) :=
  ⟨C3_draw_targets_current_panel.1 noFailB initState plotAfter (.list []) rfl rfl rfl,
   C3_draw_targets_current_panel.2 (.list []) []⟩

/-! Claim C8. -/

/-- C8: a structure whose layout position is not an int, rectangle list
or grid-spec handle makes `_add_axes` log an error and return with no
panel, no artifact and empty registries; the same happens when backend
panel creation itself fails. -/
theorem C8_invalid_layout_skips_structure (B : Backend) (s : AxesStruct) :
    (isValidPos s.layout.pos = false →
      add_axes B s = ⟨[], [], [], [], [],
        [.error "AxesStructure layout 0 must be a int, list, or SubplotSpec. Ignore this axes."]⟩) ∧
    (isValidPos s.layout.pos = true →
      (if isRectPos s.layout.pos then B.addAxesFails s.layout.pos s.layout.kw
       else B.addSubplotFails s.layout.pos s.layout.kw) = true →
      add_axes B s = ⟨[], [], [], [], [], [.error "Failed to add axes!"]⟩) := by
  constructor
  · intro hInv
    simp [add_axes, hInv]
  · intro hOk hFail
    simp [add_axes, hOk, hFail]

/-- C8, witness: a concrete invalid position, and a concrete backend
refusing panel creation. -/
theorem C8_invalid_layout_skips_structure_witness :
    isValidPos (Position.other 0) = false ∧
    add_axes noFailB ⟨[], ⟨.other 0, []⟩, []⟩ = ⟨[], [], [], [], [],
      [.error "AxesStructure layout 0 must be a int, list, or SubplotSpec. Ignore this axes."]⟩ ∧
    add_axes ⟨fun _ _ => true, fun _ _ => true, fun _ _ => false, fun _ _ => false⟩
        ⟨[], ⟨.int 111, []⟩, []⟩ =
      ⟨[], [], [], [], [], [.error "Failed to add axes!"]⟩ := by
  refine ⟨rfl, ?_, ?_⟩
  · exact (C8_invalid_layout_skips_structure noFailB ⟨[], ⟨.other 0, []⟩, []⟩).1 rfl
  · exact (C8_invalid_layout_skips_structure
      ⟨fun _ _ => true, fun _ _ => true, fun _ _ => false, fun _ _ => false⟩
      ⟨[], ⟨.int 111, []⟩, []⟩).2 rfl rfl

/-! Claim C9. -/

/-- C9: when a twin instruction's order key is already present in the
axes registry, or a drawing instruction's order key is already present in
the artist registry, and the operation itself succeeds, the interpreter
logs a duplicate-index warning and overwrites the registry entry with the
new panel/artifact — the instruction is executed, not skipped, and
nothing fatal happens. -/
theorem C9_duplicate_key_warns_and_overwrites (B : Backend) (st : RunState) (ins : Instr) :
    ((ins.axfunc = "twinx" ∨ ins.axfunc = "twiny") →
      B.twinFails st.ax ins.axfunc = false →
      hasKey st.axesdict ins.index = true →
      ∃ tail,
        getKey (execInstr B st ins).axesdict ins.index =
          some (Panel.twin st.ax ins.axfunc st.twinCount) ∧
        (execInstr B st ins).logs =
          st.logs ++ [.warn ("Duplicate index " ++ toString ins.index)] ++ tail) ∧
    (∀ a : Val, isDrawVerb ins.axfunc = true → ins.fargs = .val a →
      B.drawFails st.ax ins.axfunc = false →
      hasKey st.artistdict ins.index = true →
      getKey (execInstr B st ins).artistdict ins.index =
        some ⟨st.ax, ins.axfunc, a, ins.fkwargs⟩ ∧
      (execInstr B st ins).logs =
        st.logs ++ [.warn ("Duplicate index " ++ toString ins.index)]) := by
  constructor
  · intro hv hf hdup
    rw [exec_twin_ok B st ins hv hf]
    cases hnc : getKey ins.fkwargs "nextcolor" with
    | none =>
      exact ⟨[], getKey_setKey_self st.axesdict ins.index _, by simp [hdup]⟩
    | some v =>
      cases v with
      | int n =>
        exact ⟨[], getKey_setKey_self st.axesdict ins.index _, by simp [hdup]⟩
      | none =>
        exact ⟨[.error ("Failed to create axes " ++ toString ins.index)],
          getKey_setKey_self st.axesdict ins.index _, by simp [hdup]⟩
      | bool b =>
        exact ⟨[.error ("Failed to create axes " ++ toString ins.index)],
          getKey_setKey_self st.axesdict ins.index _, by simp [hdup]⟩
      | str s2 =>
        exact ⟨[.error ("Failed to create axes " ++ toString ins.index)],
          getKey_setKey_self st.axesdict ins.index _, by simp [hdup]⟩
      | list l =>
        exact ⟨[.error ("Failed to create axes " ++ toString ins.index)],
          getKey_setKey_self st.axesdict ins.index _, by simp [hdup]⟩
      | arr a2 =>
        exact ⟨[.error ("Failed to create axes " ++ toString ins.index)],
          getKey_setKey_self st.axesdict ins.index _, by simp [hdup]⟩
  · intro a hv ha hf hdup
    rw [exec_draw_ok B st ins a hv ha hf]
    exact ⟨getKey_setKey_self st.artistdict ins.index _, by simp [hdup]⟩

/-- C9, witness: a twin instruction reusing key 0 (held by the primary
panel) warns and overwrites; a plot instruction reusing a taken artist
key warns and overwrites. -/
theorem C9_duplicate_key_warns_and_overwrites_witness :
    (∃ tail,
      getKey (execInstr noFailB initState ⟨0, "twinx", .val (.list []), []⟩).axesdict 0 =
        some (Panel.twin Panel.primary "twinx" 0) ∧
      (execInstr noFailB initState ⟨0, "twinx", .val (.list []), []⟩).logs =
        initState.logs ++ [.warn ("Duplicate index " ++ toString (0 : Int))] ++ tail) ∧
    (getKey (execInstr noFailB
        { initState with artistdict := [(3, ⟨Panel.primary, "plot", .list [], []⟩)] }
        plotAfter).artistdict 3 =
      some ⟨Panel.primary, "plot", .list [], []⟩ ∧
     (execInstr noFailB
        { initState with artistdict := [(3, ⟨Panel.primary, "plot", .list [], []⟩)] }
        plotAfter).logs =
      initState.logs ++ [.warn ("Duplicate index " ++ toString (3 : Int))]) :=
  ⟨(C9_duplicate_key_warns_and_overwrites noFailB initState
      ⟨0, "twinx", .val (.list []), []⟩).1 (Or.inl rfl) rfl rfl,
   (C9_duplicate_key_warns_and_overwrites noFailB
      { initState with artistdict := [(3, ⟨Panel.primary, "plot", .list [], []⟩)] }
      plotAfter).2 (.list []) rfl rfl rfl rfl⟩

/-! Claims C5 and C10: the line template. -/

/-- The plot entries the line-template loop emits for these lines,
numbering from `i`. -/
def linePlots (i : Int) : List Line → List Instr
  | [] => []
  | ln :: r => ln.toPlot i :: linePlots (i + 1) r

theorem lineLoop_eq (L : List Line) : ∀ i : Int,
    lineLoop i L = (linePlots i L,
      if L.isEmpty then Option.none else some (i + L.length - 1),
      L.any Line.isLabelled) := by
  induction L with
  | nil => intro i; simp [lineLoop, linePlots]
  | cons ln r ih =>
    intro i
    simp only [lineLoop, linePlots, ih (i + 1), List.isEmpty_cons, List.any_cons,
      List.length_cons]
    cases r with
    | nil => simp [linePlots]
    | cons b s =>
      simp only [List.isEmpty_cons, if_false, Option.getD_some, List.length_cons,
        Bool.false_eq_true]
      refine congrArg _ (congrArg (fun z => (z, _)) ?_)
      refine congrArg some ?_
      push_cast
      ring

theorem lineLoop_of_ne_nil (L : List Line) (h : L ≠ []) :
    lineLoop 1 L = (linePlots 1 L, some (L.length : Int), L.any Line.isLabelled) := by
  rw [lineLoop_eq]
  have h1 : L.isEmpty = false := by simpa using h
  rw [h1]
  simp only [Bool.false_eq_true, if_false]
  refine congrArg (fun z => (_, z, _)) (congrArg some ?_)
  omega

/-- C5: on every input on which the template returns (every input except
the empty line list combined with a rotated ylabel, settled separately),
it emits exactly one plot instruction per line, in input order with order
keys 1..N, then exactly one legend instruction (at key N+1) iff at least
one line carried a label, then at most a set-ylabel instruction; with
zero labelled lines no legend instruction appears. -/
theorem C5_line_template_shape (LINE : List Line) (title xlabel ylabel : Option String)
    (xlim ylim : Val) (rot : Option Val) (lkw : Kwargs)
    (h : LINE ≠ [] ∨ truthyS ylabel = false ∨ rot = Option.none) :
    ∃ kw, template_line_axstructs LINE title xlabel ylabel xlim ylim rot lkw =
      .ok ([⟨linePlots 1 LINE
              ++ (if LINE.any Line.isLabelled then
                    [mkI ((LINE.length : Int) + 1) "legend" (.list []) lkw] else [])
              ++ (if truthyS ylabel && rot.isSome then
                    [mkI ((if LINE.any Line.isLabelled then (LINE.length : Int) + 1
                           else (LINE.length : Int)) + 1)
                         "set_ylabel" (.list [strOf ylabel]) [("rotation", rot.getD Val.none)]]
                  else []),
             ⟨.int 111, kw⟩, []⟩], []) := by
  by_cases hL : LINE = []
  · subst hL
    have h2 : truthyS ylabel = false ∨ rot = Option.none := by
      rcases h with h | h | h
      · exact absurd rfl h
      · exact Or.inl h
      · exact Or.inr h
    rcases h2 with h2 | h2
    · exact ⟨_, by simp [template_line_axstructs, lineLoop, linePlots, h2]; rfl⟩
    · subst h2
      by_cases hy : truthyS ylabel = true
      · exact ⟨_, by simp [template_line_axstructs, lineLoop, linePlots, hy]; rfl⟩
      · exact ⟨_, by simp [template_line_axstructs, lineLoop, linePlots,
          (Bool.not_eq_true _).mp hy]; rfl⟩
  · by_cases hlab : LINE.any Line.isLabelled = true
    · by_cases hy : truthyS ylabel = true
      · cases rot with
        | none =>
          exact ⟨_, by
            simp [template_line_axstructs, lineLoop_of_ne_nil LINE hL, hlab, hy, pyName]; rfl⟩
        | some rv =>
          exact ⟨_, by
            simp [template_line_axstructs, lineLoop_of_ne_nil LINE hL, hlab, hy, pyName]; rfl⟩
      · have hy2 : truthyS ylabel = false := (Bool.not_eq_true _).mp hy
        exact ⟨_, by
          simp [template_line_axstructs, lineLoop_of_ne_nil LINE hL, hlab, hy2, pyName]; rfl⟩
    · have hlab2 : LINE.any Line.isLabelled = false := (Bool.not_eq_true _).mp hlab
      by_cases hy : truthyS ylabel = true
      · cases rot with
        | none =>
          exact ⟨_, by
            simp [template_line_axstructs, lineLoop_of_ne_nil LINE hL, hlab2, hy, pyName]; rfl⟩
        | some rv =>
          exact ⟨_, by
            simp [template_line_axstructs, lineLoop_of_ne_nil LINE hL, hlab2, hy, pyName]; rfl⟩
      · have hy2 : truthyS ylabel = false := (Bool.not_eq_true _).mp hy
        exact ⟨_, by
          simp [template_line_axstructs, lineLoop_of_ne_nil LINE hL, hlab2, hy2, pyName]; rfl⟩

/-- C5, witness: one labelled and one unlabelled line yield plots at keys
1 and 2 and a single legend at key 3 (the spec's end-to-end example). -/
theorem C5_line_template_shape_witness :
    ∃ kw, template_line_axstructs [.xyl (.arr [1]) (.arr [2]) "A", .xy (.arr [3]) (.arr [4])]
        (some "T") Option.none Option.none Val.none Val.none Option.none
        [("loc", .str "best")] =
      .ok ([⟨linePlots 1 [.xyl (.arr [1]) (.arr [2]) "A", .xy (.arr [3]) (.arr [4])]
              ++ (if ([Line.xyl (.arr [1]) (.arr [2]) "A", .xy (.arr [3]) (.arr [4])].any
                      Line.isLabelled) then
                    [mkI (((2 : Nat) : Int) + 1) "legend" (.list []) [("loc", .str "best")]]
                  else [])
              ++ (if truthyS Option.none && (Option.none : Option Val).isSome then
                    [mkI ((if ([Line.xyl (.arr [1]) (.arr [2]) "A",
                               .xy (.arr [3]) (.arr [4])].any Line.isLabelled) then
                             ((2 : Nat) : Int) + 1 else ((2 : Nat) : Int)) + 1)
                         "set_ylabel" (.list [strOf Option.none])
                         [("rotation", (Option.none : Option Val).getD Val.none)]]
                  else []),
             ⟨.int 111, kw⟩, []⟩], []) :=
  C5_line_template_shape [.xyl (.arr [1]) (.arr [2]) "A", .xy (.arr [3]) (.arr [4])]
    (some "T") Option.none Option.none Val.none Val.none Option.none
    [("loc", .str "best")] (Or.inl (by simp))

/-- C10: on the empty line list with a truthy ylabel and a non-None
ylabel rotation, the template raises NameError (the loop variable `i` is
used before ever being bound) instead of returning a structure. -/
theorem C10_empty_lines_rotation_name_error (title xlabel ylabel : Option String)
    (xlim ylim : Val) (rot : Val) (lkw : Kwargs) (hy : truthyS ylabel = true) :
    template_line_axstructs [] title xlabel ylabel xlim ylim (some rot) lkw =
      .error "NameError: name i is not defined" := by
  simp [template_line_axstructs, lineLoop, hy, pyName]

/-- C10, witness at a concrete call. -/
theorem C10_empty_lines_rotation_name_error_witness :
    truthyS (some "Y") = true ∧
    template_line_axstructs [] Option.none Option.none (some "Y") Val.none Val.none
        (some (.int 45)) [] = .error "NameError: name i is not defined" :=
  ⟨rfl, C10_empty_lines_rotation_name_error Option.none Option.none (some "Y")
    Val.none Val.none (.int 45) [] rfl⟩

/-! Claim C4: the pseudocolor/surface template. -/

theorem update_vminmax (d : Kwargs) (a b : Val) :
    update d [("vmin", a), ("vmax", b)] = setKey (setKey d "vmin" a) "vmax" b :=
  rfl

/-- C4: the primary plot instruction (inserted first, at order key 1)
carries `vmax = max(|Z.max()|, |Z.min()|)` and `vmin = -vmax` unless the
caller's plot-method kwargs bind vmin/vmax, in which case those exact
caller values are what the final kwargs hold (caller kwargs are merged
last). -/
theorem C4_pcolor_symmetric_color_scale (X Y Z : List Int) (pm : String)
    (pargs : List Val) (pkw : Kwargs) (title xlabel ylabel : Option String)
    (cb : Bool) (ga : Option Val) (shadow : List SAxis) (_hZ : Z ≠ []) :
    ∃ (kwF : Kwargs) (rest : List Instr) (lk : Kwargs),
      template_pcolor_axstructs X Y Z pm pargs pkw title xlabel ylabel cb ga shadow =
        ([⟨mkI 1 pm (.list ([.arr X, .arr Y, .arr Z] ++
            (pargs ++ (if pargs.isEmpty ∧ pm = "contourf" then [.int 100] else [])))) kwF
           :: rest, ⟨.int 111, lk⟩, []⟩], []) ∧
      (lookupLast pkw "vmax" = Option.none →
        getKey kwF "vmax" = some (.int (max |lmax Z| |lmin Z|))) ∧
      (lookupLast pkw "vmin" = Option.none →
        getKey kwF "vmin" = some (.int (-(max |lmax Z| |lmin Z|)))) ∧
      (∀ v, lookupLast pkw "vmax" = some v → getKey kwF "vmax" = some v) ∧
      (∀ v, lookupLast pkw "vmin" = some v → getKey kwF "vmin" = some v) := by
  refine ⟨_, _, _, rfl, ?_, ?_, ?_, ?_⟩
  · intro hn
    rw [getKey_update_none pkw _ _ hn, update_vminmax, getKey_setKey_self]
  · intro hn
    rw [getKey_update_none pkw _ _ hn, update_vminmax,
      getKey_setKey_ne _ _ _ _ (by decide : "vmin" ≠ "vmax"), getKey_setKey_self]
  · intro v hv
    rw [getKey_update_some pkw _ _ _ hv]
  · intro v hv
    rw [getKey_update_some pkw _ _ _ hv]

/-- C4, witness: the spec's end-to-end example — Z spanning [-3,5] with
no caller override gives vmax=5 and vmin=-5, and with a caller vmax=7 the
caller value survives. -/
theorem C4_pcolor_symmetric_color_scale_witness :
    (∃ (kwF : Kwargs) (rest : List Instr) (lk : Kwargs),
      template_pcolor_axstructs [0] [0] [-3, 5] "contourf" [] [] Option.none Option.none
          Option.none false Option.none [] =
        ([⟨mkI 1 "contourf" (.list ([.arr [0], .arr [0], .arr [-3, 5]] ++
            (([] : List Val) ++
              (if ([] : List Val).isEmpty ∧ "contourf" = "contourf" then
                [Val.int 100] else [])))) kwF :: rest, ⟨.int 111, lk⟩, []⟩], []) ∧
      (lookupLast ([] : Kwargs) "vmax" = Option.none →
        getKey kwF "vmax" = some (.int (max |lmax [-3, 5]| |lmin [-3, 5]|))) ∧
      (lookupLast ([] : Kwargs) "vmin" = Option.none →
        getKey kwF "vmin" = some (.int (-(max |lmax [-3, 5]| |lmin [-3, 5]|)))) ∧
      (∀ v, lookupLast ([] : Kwargs) "vmax" = some v → getKey kwF "vmax" = some v) ∧
      (∀ v, lookupLast ([] : Kwargs) "vmin" = some v → getKey kwF "vmin" = some v)) ∧
    getKey (((template_pcolor_axstructs [0] [0] [-3, 5] "contourf" [] [] Option.none
        Option.none Option.none false Option.none []).1.headD
          ⟨[], ⟨.int 0, []⟩, []⟩).data.headD (mkI 0 "" (.list []) [])).fkwargs "vmax" =
      some (.int 5) ∧
    getKey (((template_pcolor_axstructs [0] [0] [-3, 5] "contourf" [] [] Option.none
        Option.none Option.none false Option.none []).1.headD
          ⟨[], ⟨.int 0, []⟩, []⟩).data.headD (mkI 0 "" (.list []) [])).fkwargs "vmin" =
      some (.int (-5)) ∧
    getKey (((template_pcolor_axstructs [0] [0] [-3, 5] "contourf" []
        [("vmax", .int 7)] Option.none Option.none Option.none false Option.none
        []).1.headD ⟨[], ⟨.int 0, []⟩, []⟩).data.headD (mkI 0 "" (.list []) [])).fkwargs
        "vmax" = some (.int 7) :=
  ⟨C4_pcolor_symmetric_color_scale [0] [0] [-3, 5] "contourf" [] [] Option.none
    Option.none Option.none false Option.none [] (by simp), rfl, rfl, rfl⟩

/-! Claim C6: the composite-grid template. -/

/-- The overwrite `ax['layout'][0] = pos` applied to one surviving pair. -/
def updPos (p : AxesStruct × Position) : AxesStruct :=
  { p.1 with layout := ⟨p.2, p.1.layout.kw⟩ }

theorem z111pLoop_all_valid :
    ∀ (i : Nat) (l : List (AxesStruct × Position)),
      (∀ p ∈ l, isValidPos p.2 = true) → z111pLoop i l = (l.map updPos, []) := by
  intro i l
  induction l generalizing i with
  | nil => intro _; rfl
  | cons p r ih =>
    intro h
    obtain ⟨ax, pos⟩ := p
    have hp : isValidPos pos = true := h (ax, pos) (by simp)
    have hr : ∀ q ∈ r, isValidPos q.2 = true := fun q hq => h q (by simp [hq])
    simp [z111pLoop, hp, ih (i + 1) hr, updPos]

theorem z111pLoop_one_invalid :
    ∀ (pre : List (AxesStruct × Position)) (i : Nat) (bad : AxesStruct × Position)
      (post : List (AxesStruct × Position)),
      (∀ p ∈ pre ++ post, isValidPos p.2 = true) → isValidPos bad.2 = false →
      z111pLoop i (pre ++ bad :: post) = ((pre ++ post).map updPos,
        [.error ("zip_results " ++ toString (i + pre.length) ++ ": invalid position!")]) := by
  intro pre
  induction pre with
  | nil =>
    intro i bad post h hbad
    obtain ⟨ax, pos⟩ := bad
    simp only [List.nil_append] at h ⊢
    simp [z111pLoop, hbad, z111pLoop_all_valid (i + 1) post h]
  | cons q pre ih =>
    intro i bad post h hbad
    obtain ⟨ax, pos⟩ := q
    have hq : isValidPos pos = true := h (ax, pos) (by simp)
    have hrest : ∀ p ∈ pre ++ post, isValidPos p.2 = true := by
      intro p hp
      refine h p ?_
      rcases List.mem_append.mp hp with hp | hp
      · exact List.mem_append.mpr (Or.inl (List.mem_cons_of_mem _ hp))
      · exact List.mem_append.mpr (Or.inr hp)
    have harith : i + 1 + pre.length = i + (pre.length + 1) := by omega
    simp [z111pLoop, hq, ih (i + 1) bad post hrest hbad, updPos, harith]

/-- C6: with all N positions valid the template returns the N structures
with their layout positions overwritten by the supplied targets and data,
layout kwargs and axstyle untouched (and logs nothing); with exactly one
invalid position among them, that pair is dropped with one logged error
and the remaining N-1 pairs come through unaffected. -/
theorem C6_z111p_positions :
    (∀ zip_results : List (AxesStruct × Position),
      (∀ p ∈ zip_results, isValidPos p.2 = true) →
      template_z111p_axstructs zip_results Option.none =
        ((zip_results.map updPos, []), []) ∧
      (template_z111p_axstructs zip_results Option.none).1.1.length =
        zip_results.length) ∧
    (∀ (pre : List (AxesStruct × Position)) (bad : AxesStruct × Position)
       (post : List (AxesStruct × Position)),
      (∀ p ∈ pre ++ post, isValidPos p.2 = true) → isValidPos bad.2 = false →
      template_z111p_axstructs (pre ++ bad :: post) Option.none =
        (((pre ++ post).map updPos, []),
         [.error ("zip_results " ++ toString pre.length ++ ": invalid position!")]) ∧
      (template_z111p_axstructs (pre ++ bad :: post) Option.none).1.1.length =
        pre.length + post.length) := by
  constructor
  · intro l h
    have hl := z111pLoop_all_valid 0 l h
    constructor
    · simp [template_z111p_axstructs, truthyS, hl]
    · simp [template_z111p_axstructs, truthyS, hl]
  · intro pre bad post h hbad
    have hl := z111pLoop_one_invalid pre 0 bad post h hbad
    have h0 : (0 : Nat) + pre.length = pre.length := by omega
    rw [h0] at hl
    constructor
    · simp [template_z111p_axstructs, truthyS, hl]
    · simp [template_z111p_axstructs, truthyS, hl]

/-- C6, witness: two valid pairs survive with overwritten positions; with
an invalid middle pair the other two survive and the drop is logged. -/
theorem C6_z111p_positions_witness :
    (template_z111p_axstructs
        [(⟨[], ⟨.int 0, []⟩, []⟩, .int 221), (⟨[], ⟨.int 0, []⟩, []⟩, .int 222)]
        Option.none =
      (([(⟨[], ⟨.int 221, []⟩, []⟩ : AxesStruct), ⟨[], ⟨.int 222, []⟩, []⟩], []), []) ∧
     (template_z111p_axstructs
        [(⟨[], ⟨.int 0, []⟩, []⟩, .int 221), (⟨[], ⟨.int 0, []⟩, []⟩, .int 222)]
        Option.none).1.1.length = 2) ∧
    (template_z111p_axstructs
        [(⟨[], ⟨.int 0, []⟩, []⟩, .int 221), (⟨[], ⟨.int 0, []⟩, []⟩, .other 0),
         (⟨[], ⟨.int 0, []⟩, []⟩, .int 223)]
        Option.none =
      (([(⟨[], ⟨.int 221, []⟩, []⟩ : AxesStruct), ⟨[], ⟨.int 223, []⟩, []⟩], []),
       [.error ("zip_results " ++ toString (1 : Nat) ++ ": invalid position!")]) ∧
     (template_z111p_axstructs
        [(⟨[], ⟨.int 0, []⟩, []⟩, .int 221), (⟨[], ⟨.int 0, []⟩, []⟩, .other 0),
         (⟨[], ⟨.int 0, []⟩, []⟩, .int 223)]
        Option.none).1.1.length = 1 + 1) := by
  constructor
  · exact C6_z111p_positions.1
      [(⟨[], ⟨.int 0, []⟩, []⟩, .int 221), (⟨[], ⟨.int 0, []⟩, []⟩, .int 222)]
      (by intro p hp; fin_cases hp <;> rfl)
  · exact C6_z111p_positions.2
      [(⟨[], ⟨.int 0, []⟩, []⟩, .int 221)] (⟨[], ⟨.int 0, []⟩, []⟩, .other 0)
      [(⟨[], ⟨.int 0, []⟩, []⟩, .int 223)]
      (by intro p hp; fin_cases hp <;> rfl) rfl

/-! Claim C7: the shared-x stacked twin-axis template. -/

theorem plotLoop_length (X : Val) : ∀ (i : Int) (l : List (Val × String)),
    (plotLoop X i l).length = l.length := by
  intro i l
  induction l generalizing i with
  | nil => rfl
  | cons ln r ih => simp [plotLoop, ih]

theorem sharexRows_get (X xlim rot : Val) (n : Nat) (title xlabel : Option String) :
    ∀ (r0 : Nat) (rows : List Row) (j : Nat),
      (sharexRows X xlim rot n title xlabel r0 rows).get? j =
        (rows.get? j).map (fun row => mkRowStruct X xlim rot n title xlabel (r0 + j) row) := by
  intro r0 rows
  induction rows generalizing r0 with
  | nil => intro j; cases j <;> rfl
  | cons row rest ih =>
    intro j
    cases j with
    | zero => simp [sharexRows]
    | succ j2 =>
      have h := ih (r0 + 1) j2
      have harith : r0 + 1 + j2 = r0 + (j2 + 1) := by omega
      rw [harith] at h
      simpa [sharexRows] using h

/-- C7: for every row whose right line group is non-empty, that row's
emitted data is the left block followed by: a twinx instruction whose
nextcolor equals the number of left lines, one plot instruction per right
line, a legend instruction (loc upper right unless the row overrides it),
the optional right set-ylabel, and finally a set_xlim instruction
re-applying the shared xlim on the twin. -/
theorem C7_sharex_right_group_sequence (X : Val) (YINFO : List Row) (hspace : Val)
    (title xlabel : Option String) (xlim rot : Val) (r : Nat) (row : Row)
    (hg : YINFO.get? r = some row) (hr : row.right ≠ []) :
    ∃ s, (template_sharex_twinx_axstructs X YINFO hspace title xlabel xlim rot).1.get? r =
        some s ∧
      s.data = (leftBlock X rot row).1 ++
        mkI ((leftBlock X rot row).2 + 1) "twinx" (.list [])
            [("nextcolor", .int row.left.length)] ::
        (plotLoop X ((leftBlock X rot row).2 + 1 + 1) row.right ++
          [mkI ((leftBlock X rot row).2 + 1 + (row.right.length : Int) + 1) "legend"
              (.list []) (row.rlegend.getD [("loc", .str "upper right")])] ++
          (match row.rylabel with
           | some yl =>
             [mkI ((leftBlock X rot row).2 + 1 + (row.right.length : Int) + 1 + 1)
                  "set_ylabel" (.list [.str yl]) [("rotation", rot)],
              mkI ((leftBlock X rot row).2 + 1 + (row.right.length : Int) + 1 + 2)
                  "set_xlim" xlim []]
           | Option.none =>
             [mkI ((leftBlock X rot row).2 + 1 + (row.right.length : Int) + 1 + 1)
                  "set_xlim" xlim []])) ∧
      (plotLoop X ((leftBlock X rot row).2 + 1 + 1) row.right).length =
        row.right.length := by
  refine ⟨mkRowStruct X xlim rot YINFO.length title xlabel r row, ?_, ?_, plotLoop_length X _ _⟩
  · have h := sharexRows_get X xlim rot YINFO.length title xlabel 0 YINFO r
    simp only [Nat.zero_add] at h
    show (sharexRows X xlim rot YINFO.length title xlabel 0 YINFO).get? r = _
    rw [h, hg]
    rfl
  · have hlen : row.right.length > 0 := List.length_pos.mpr hr
    show rowData X xlim rot row = _
    rw [rowData]
    rw [if_pos hlen]
    cases hy : row.rylabel with
    | none => simp [List.append_assoc]
    | some yl => simp [List.append_assoc]

/-- C7, witness: one row with one left line and two right lines, an
overridden right legend absent, and a right ylabel absent. -/
theorem C7_sharex_right_group_sequence_witness :
    ∃ s, (template_sharex_twinx_axstructs (.arr [0])
        [⟨[(.arr [1], "l")], [(.arr [2], "r1"), (.arr [3], "r2")],
          Option.none, Option.none, Option.none, Option.none⟩]
        (.int 1) Option.none Option.none (.arr [0, 9]) Val.none).1.get? 0 = some s ∧
      s.data = (leftBlock (.arr [0]) Val.none
          ⟨[(.arr [1], "l")], [(.arr [2], "r1"), (.arr [3], "r2")],
            Option.none, Option.none, Option.none, Option.none⟩).1 ++
        mkI ((leftBlock (.arr [0]) Val.none
          ⟨[(.arr [1], "l")], [(.arr [2], "r1"), (.arr [3], "r2")],
            Option.none, Option.none, Option.none, Option.none⟩).2 + 1) "twinx" (.list [])
            [("nextcolor", .int (1 : Nat))] ::
        (plotLoop (.arr [0]) ((leftBlock (.arr [0]) Val.none
            ⟨[(.arr [1], "l")], [(.arr [2], "r1"), (.arr [3], "r2")],
              Option.none, Option.none, Option.none, Option.none⟩).2 + 1 + 1)
            [(.arr [2], "r1"), (.arr [3], "r2")] ++
          [mkI ((leftBlock (.arr [0]) Val.none
              ⟨[(.arr [1], "l")], [(.arr [2], "r1"), (.arr [3], "r2")],
                Option.none, Option.none, Option.none, Option.none⟩).2 + 1 +
              ((2 : Nat) : Int) + 1) "legend"
              (.list []) ((Option.none : Option Kwargs).getD [("loc", .str "upper right")])] ++
          [mkI ((leftBlock (.arr [0]) Val.none
              ⟨[(.arr [1], "l")], [(.arr [2], "r1"), (.arr [3], "r2")],
                Option.none, Option.none, Option.none, Option.none⟩).2 + 1 +
              ((2 : Nat) : Int) + 1 + 1) "set_xlim" (.arr [0, 9]) []]) ∧
      (plotLoop (.arr [0]) ((leftBlock (.arr [0]) Val.none
          ⟨[(.arr [1], "l")], [(.arr [2], "r1"), (.arr [3], "r2")],
            Option.none, Option.none, Option.none, Option.none⟩).2 + 1 + 1)
          [(.arr [2], "r1"), (.arr [3], "r2")]).length = 2 :=
  C7_sharex_right_group_sequence (.arr [0])
    [⟨[(.arr [1], "l")], [(.arr [2], "r1"), (.arr [3], "r2")],
      Option.none, Option.none, Option.none, Option.none⟩]
    (.int 1) Option.none Option.none (.arr [0, 9]) Val.none 0
    ⟨[(.arr [1], "l")], [(.arr [2], "r1"), (.arr [3], "r2")],
      Option.none, Option.none, Option.none, Option.none⟩ rfl (by simp)

end Gdpy3
